import Mathlib

/-!
Shallow embedding of the fcrepo4 Python client library (src/fcrepo4.py),
a Pythonic interface to Fedora Commons 4.  HTTP transport is modelled by an
oracle (`World`) mapping requests to responses; every operation threads a log
of the repository API requests it has issued, in order, so that temporal
claims about call ordering can be stated as facts about the log.  Fallible
operations return `Except Err`.
-/

namespace Fcrepo4

/-- The apostrophe character, used in error message literals. -/
def apos : String := String.singleton (Char.ofNat 39)

/-- RDF node, as the code observes rdflib terms: a URI reference or a
literal.  `str()` of a URIRef is its text; `str()` of a Literal is its
lexical value. -/
inductive Node where
  | uriRef (u : String)
  | literal (s : String)
deriving Repr, DecidableEq

/-- Python `str()` on a node. -/
def Node.str : Node → String
  | .uriRef u => u
  | .literal s => s

/-- An RDF triple (subject, predicate, object). -/
structure Triple where
  s : Node
  p : Node
  o : Node
deriving Repr, DecidableEq

/-- An rdflib Graph, embedded as the list of its triples in iteration
order (the code only iterates, filters and adds). -/
abbrev Graph := List Triple

/-- The Dublin Core namespace bound by `from rdflib.namespace import DC`. -/
def DC (field : String) : Node :=
  Node.uriRef ("http://purl.org/dc/elements/1.1/" ++ field)

/-- DC_FIELDS from the source: the 15 known Dublin Core field names. -/
def DC_FIELDS : List String :=
  ["contributor", "coverage", "creator", "date", "description", "format",
   "identifier", "language", "publisher", "relation", "rights", "source",
   "subject", "title", "type"]

/-- The request payload, kept symbolic: the wire serialisation of an RDF
graph (rdflib serialize) and the streaming of file or URL bodies are
delegated to libraries in the source and are not re-implemented. -/
inductive ReqData where
  | noData
  | rdf (g : Graph)
  | fileData (name : String)
  | urlStream (url : String)
deriving Repr, DecidableEq

/-- Header values: `mimetypes.guess_type` can return None, which the code
stores as a header value as-is. -/
abbrev Headers := List (String × Option String)

/-- An outbound HTTP request issued through `Repository.api`. -/
structure Request where
  method : String
  uri : String
  headers : Headers
  data : ReqData
deriving Repr, DecidableEq

/-- The fields of a `requests.Response` that the library reads.
`bodyGraph` is the RDF graph denoted by the body when the body is turtle
(rdflib parsing is delegated). -/
structure HTTPResponse where
  status_code : Nat
  reason : String := ""
  text : String := ""
  contentType : String := ""
  bodyGraph : Graph := []
deriving Repr, DecidableEq

/-- Truthiness of a `requests.Response`: `bool(r)` is `r.ok`, which is
`status_code < 400`. -/
def HTTPResponse.truthy (r : HTTPResponse) : Bool := r.status_code < 400

/-- Truthiness of `Optional[Response]`: `None` is falsy. -/
def optTruthy : Option HTTPResponse → Bool
  | none => false
  | some r => r.truthy

/-- The environment the library talks to: the repository server (keyed by
the full request), the outside web (`requests.get(source, stream=True)` on
a source URL, keyed by the URL), the local filesystem (whether
`open(source, "rb")` succeeds), and `mimetypes.guess_type`. -/
structure World where
  server : Request → HTTPResponse
  web : String → HTTPResponse
  fs : String → Option Unit
  guess_type : String → Option String

/-- The exceptions the embedded code can raise.  `error` is the base class
`Error` (raised directly by the source in several places); `resourceError`
carries the fields of the response that the class stores (uri, status_code,
reason, message).  `attributeError` and `ioError` stand for Python-level
exceptions (attribute access on None, failing `open`). -/
inductive Err where
  | error (message : String)
  | uriError (message : String)
  | conflictError (message : String)
  | resourceError (uri : String) (status_code : Nat) (reason : String) (message : String)
  | attributeError
  | ioError (filename : String)
deriving Repr, DecidableEq

/-- Repository connection state after `__init__`: base uri (normalized to
end in a separator) and credentials.  `pathre` is derived from `uri`. -/
structure Repo where
  uri : String
  user : String
  password : String
deriving Repr, DecidableEq

/-- One atom of the compiled path pattern.  The source interpolates the
base URI into the regex pattern - caret, base uri, the text rest/, a
capture group of dot-star, dollar - WITHOUT escaping, so a dot in the base
URI is the regex wildcard (any character except newline); the other
characters of a typical base URI are regex literals. -/
def charMatches (p c : Char) : Bool :=
  if p = '.' then c ≠ '\n' else p = c

/-- Match a pattern (list of atoms) against the front of a string,
returning the unconsumed remainder on success. -/
def scanFront : List Char → List Char → Option (List Char)
  | [], cs => some cs
  | _ :: _, [] => none
  | p :: ps, c :: cs => if charMatches p c then scanFront ps cs else none

/-- The trailing `(.*)$` of the pattern: `.` does not cross a newline and
`$` matches at the end of the string or just before a single final
newline, so a remainder containing a non-final newline does not match and
a single final newline is dropped from the captured group. -/
def captureRest (cs : List Char) : Option (List Char) :=
  if cs.contains '\n' then
    if cs.getLast? = some '\n' ∧ ¬ cs.dropLast.contains '\n' then
      some cs.dropLast
    else
      none
  else some cs

/-- A match of self.pathre against a uri, returning the captured group:
the pattern is the base uri followed by rest/ and a capture of the
remainder, anchored at start and end. -/
def pathreMatch (repo : Repo) (uri : String) : Option String :=
  match scanFront (repo.uri ++ "rest/").toList uri.toList with
  | none => none
  | some rest =>
    match captureRest rest with
    | none => none
    | some cap => some (String.mk cap)

/-- `Repository.path2uri`: converts a REST API path to a url. -/
def path2uri (repo : Repo) (path : String) : String :=
  let uri := repo.uri ++ "rest"
  if path = "" then uri
  else if path.take 1 ≠ "/" then uri ++ "/" ++ path
  else uri ++ path

/-- `Repository.uri2path`: converts a full uri to a REST path; raises
URIError if the uri does not match the compiled pattern. -/
def uri2path (repo : Repo) (uri : String) : Except Err String :=
  match pathreMatch repo uri with
  | some p => Except.ok p
  | none =>
    Except.error (Err.uriError ("Path mismatch - couldn" ++ apos ++ "t parse "
      ++ uri ++ " to a path in " ++ repo.uri))

/-- `Repository.pathconcat`: appends a suffix like fcr:tombstone to a
path.  The source tests `path[:-1] == "/"`, that is, the path WITHOUT its
last character (compare `self.uri[-1:]` in `__init__`). -/
def pathconcat (path s : String) : String :=
  if path.dropRight 1 = "/" then path ++ s
  else path ++ "/" ++ s

/-- The METHODS dispatch table of the source. -/
def METHODS : List String :=
  ["GET", "PUT", "POST", "PATCH", "DELETE", "HEAD", "OPTIONS"]

/-- `Repository.api`: validates the target URI (raising URIError before
any request is issued when it does not match), then dispatches on the
method table; an unknown method returns None without issuing a request.
The issued request is appended to the log. -/
def api (repo : Repo) (uri method : String) (headers : Headers) (data : ReqData)
    (w : World) (log : List Request) :
    Except Err (Option HTTPResponse) × List Request :=
  match uri2path repo uri with
  | Except.error e => (Except.error e, log)
  | Except.ok _ =>
    if METHODS.contains method then
      let req : Request := ⟨method, uri, headers, data⟩
      (Except.ok (some (w.server req)), log ++ [req])
    else
      (Except.ok none, log)

/-- A `Resource` object: its URI, the optional RDF graph `self.rdf` (an
attribute only conditionally set, modelled as an option), and the stored
response, if any. -/
structure Resource where
  uri : String
  rdf : Option Graph := none
  response : Option HTTPResponse := none
deriving Repr, DecidableEq

/-- The required configuration fields checked by `Repository.__init__`. -/
def requiredFields : List String := ["uri", "user", "password"]

/-- Python `f in configd` on the configuration mapping. -/
def configHas (configd : List (String × String)) (f : String) : Bool :=
  configd.any (fun kv => kv.1 = f)

/-- `Repository.__init__` on a configuration mapping (the dict branch):
collects the missing required fields in order and raises the generic
`Error` naming them; otherwise stores uri/user/password, normalizing the
uri to end in a separator.  Logging and the optional loglevel field have
no observable effect and are omitted. -/
def repoInit (configd : List (String × String)) : Except Err Repo :=
  let m := requiredFields.filter (fun f => ! configHas configd f)
  if m ≠ [] then
    Except.error (Err.error ("Config values missing: " ++ String.intercalate ", " m))
  else
    let uri := (List.lookup "uri" configd).getD ""
    let user := (List.lookup "user" configd).getD ""
    let password := (List.lookup "password" configd).getD ""
    let uri := if uri.takeRight 1 ≠ "/" then uri ++ "/" else uri
    Except.ok { uri := uri, user := user, password := password }

/-- `Repository.get`: fetch a resource; on HTTP 200 build a `Resource`
(parsing the body as RDF when the content type is text/turtle), otherwise
raise ResourceError. -/
def get (repo : Repo) (uri : String) (accept : Option String)
    (w : World) (log : List Request) : Except Err Resource × List Request :=
  let headers : Headers := match accept with
    | some a => [("Accept", some a)]
    | none => []
  match api repo uri "GET" headers ReqData.noData w log with
  | (Except.error e, log) => (Except.error e, log)
  | (Except.ok none, log) => (Except.error Err.attributeError, log)
  | (Except.ok (some response), log) =>
    if response.status_code = 200 then
      let rdf : Option Graph :=
        if response.contentType = "text/turtle" then some response.bodyGraph else none
      (Except.ok { uri := uri, rdf := rdf, response := some response }, log)
    else
      (Except.error (Err.resourceError uri response.status_code response.reason
        ("get " ++ uri ++ " returned HTTP status " ++ toString response.status_code
          ++ " " ++ response.reason)), log)

/-- `Repository._add_resource`: the internal PUT/POST; on HTTP 201 returns
a Resource whose uri is the response body text, otherwise raises
ResourceError. -/
def _add_resource (repo : Repo) (uri method : String) (headers : Headers)
    (data : ReqData) (w : World) (log : List Request) :
    Except Err Resource × List Request :=
  match api repo uri method headers data w log with
  | (Except.error e, log) => (Except.error e, log)
  | (Except.ok none, log) => (Except.error Err.attributeError, log)
  | (Except.ok (some response), log) =>
    if response.status_code = 201 then
      (Except.ok { uri := response.text }, log)
    else
      (Except.error (Err.resourceError uri response.status_code response.reason
        (method ++ " " ++ uri ++ " failed: " ++ toString response.status_code
          ++ " " ++ response.reason)), log)

/-- `Repository._delete_uri`: DELETE, expecting HTTP 204. -/
def _delete_uri (repo : Repo) (uri : String) (w : World) (log : List Request) :
    Except Err Bool × List Request :=
  match api repo uri "DELETE" [] ReqData.noData w log with
  | (Except.error e, log) => (Except.error e, log)
  | (Except.ok none, log) => (Except.error Err.attributeError, log)
  | (Except.ok (some response), log) =>
    if response.status_code = 204 then
      (Except.ok true, log)
    else
      (Except.error (Err.resourceError uri response.status_code response.reason
        ("delete " ++ uri ++ " returned HTTP status " ++ toString response.status_code
          ++ " " ++ response.reason)), log)

/-- `Repository.delete`: deletes a resource. -/
def delete (repo : Repo) (uri : String) (w : World) (log : List Request) :
    Except Err Bool × List Request :=
  _delete_uri repo uri w log

/-- `Repository.obliterate`: removes the tombstone record left by a
resource. -/
def obliterate (repo : Repo) (uri : String) (w : World) (log : List Request) :
    Except Err Bool × List Request :=
  _delete_uri repo (pathconcat uri "fcr:tombstone") w log

/-- `Repository._ensure_path`: the conflict-check protocol.  The source
wraps the GET in try/except ResourceError with a not-found short-circuit,
but `api` returns the response without ever raising ResourceError, so that
handler is unreachable; the decision is made by the truthiness of the
response object (status_code < 400). -/
def _ensure_path (repo : Repo) (path : String) (force : Bool)
    (w : World) (log : List Request) : Except Err Unit × List Request :=
  match api repo path "GET" [] ReqData.noData w log with
  | (Except.error e, log) => (Except.error e, log)
  | (Except.ok response, log) =>
    if optTruthy response then
      if force then
        match delete repo path w log with
        | (Except.error e, log) => (Except.error e, log)
        | (Except.ok _, log) =>
          match obliterate repo path w log with
          | (Except.error e, log) => (Except.error e, log)
          | (Except.ok _, log) => (Except.ok (), log)
      else
        (Except.error (Err.conflictError ("Path " ++ path ++ " already exists: can"
          ++ apos ++ "t re-create without force")), log)
    else
      (Except.ok (), log)

/-- `Repository.add_container`: add a new container inside an existing
one.  With a path argument this is a deterministic PUT guarded by the
conflict check; otherwise a POST with an optional Slug header.  The RDF
payload is the serialisation of the metadata graph; on success the
caller-supplied graph is stored on the returned resource. -/
def add_container (repo : Repo) (uri : String) (metadata : Graph)
    (slug : Option String) (path : Option String) (force : Bool)
    (w : World) (log : List Request) : Except Err Resource × List Request :=
  let headers : Headers := [("Content-Type", some "text/turtle")]
  match path with
  | some p =>
    let uri := pathconcat uri p
    (match _ensure_path repo uri force w log with
     | (Except.error e, log) => (Except.error e, log)
     | (Except.ok _, log) =>
       match _add_resource repo uri "PUT" headers (ReqData.rdf metadata) w log with
       | (Except.error e, log) => (Except.error e, log)
       | (Except.ok resource, log) => (Except.ok { resource with rdf := some metadata }, log))
  | none =>
    let headers := match slug with
      | some s => headers ++ [("Slug", some s)]
      | none => headers
    match _add_resource repo uri "POST" headers (ReqData.rdf metadata) w log with
    | (Except.error e, log) => (Except.error e, log)
    | (Except.ok resource, log) => (Except.ok { resource with rdf := some metadata }, log)

/-- Scheme characters accepted by `urllib.parse.urlparse`. -/
def isSchemeChar (c : Char) : Bool := c.isAlphanum || c = '+' || c = '-' || c = '.'

/-- The scheme extracted by `urllib.parse.urlparse`: the lowercased text
before the first colon, provided it is non-empty, starts with a letter and
consists of scheme characters; otherwise empty. -/
def urlparseScheme (url : String) : String :=
  match url.splitOn ":" with
  | head :: _ :: _ =>
    if head ≠ "" ∧ (head.take 1).all Char.isAlpha ∧ head.toList.all isSchemeChar then
      head.toLower
    else ""
  | _ => ""

/-- `Repository._is_url`: a data source string is a URL when its parsed
scheme is http or https. -/
def _is_url (source : String) : Bool :=
  let scheme := urlparseScheme source
  scheme = "http" || scheme = "https"

/-- `os.path.basename`: the part after the last separator. -/
def os_path_basename (s : String) : String :=
  (s.splitOn "/").getLastD s

/-- A data source for `add_binary`: a Python str (filename or URL) or any
non-str object such as a file-like stream. -/
inductive Source where
  | str (s : String)
  | stream
deriving Repr, DecidableEq

/-- `Repository.add_binary`: upload binary data to a container.  With a
path argument the conflict check runs first; then the source is
dispatched: a str that parses as an http(s) URL is streamed from the web, a
non-URL str is opened as a local file, and any non-str source raises the
generic Error.  The `mime` parameter is accepted but never read by the
source. -/
def add_binary (repo : Repo) (uri : String) (source : Source)
    (slug : Option String) (path : Option String) (force : Bool)
    (mime : Option String) (w : World) (log : List Request) :
    Except Err Resource × List Request :=
  let headers : Headers := []
  let step1 : Except Err (String × String × Headers) × List Request :=
    match path with
    | some p =>
      let uri := pathconcat uri p
      (match _ensure_path repo uri force w log with
       | (Except.error e, log) => (Except.error e, log)
       | (Except.ok _, log) => (Except.ok ("PUT", uri, headers), log))
    | none =>
      let headers := match slug with
        | some s => headers ++ [("Slug", some s)]
        | none => headers
      (Except.ok ("POST", uri, headers), log)
  match step1 with
  | (Except.error e, log) => (Except.error e, log)
  | (Except.ok (method, uri, headers), log) =>
    match source with
    | Source.str s =>
      if _is_url s then
        let source_r := w.web s
        let headers := headers ++ [("Content-type", some source_r.contentType)]
        let basename := (s.splitOn "/").getLastD ""
        let basename := if method = "POST" ∧ slug.isSome then slug.getD basename else basename
        let headers := headers ++
          [("Content-Disposition", some ("attachment; filename=\"" ++ basename ++ "\""))]
        _add_resource repo uri method headers (ReqData.urlStream s) w log
      else
        let basename := os_path_basename s
        let headers := headers ++ [("Content-type", w.guess_type s)]
        let headers := headers ++
          [("Content-Disposition", some ("attachment; filename=\"" ++ basename ++ "\""))]
        match w.fs s with
        | none => (Except.error (Err.ioError s), log)
        | some _ => _add_resource repo uri method headers (ReqData.fileData s) w log
    | Source.stream =>
      (Except.error (Err.error "add_binary only does files and URLs atm"), log)

/-- `Repository.put`: PUT updated metadata, expecting HTTP 204; a data
payload is unsupported and raises the generic Error. -/
def put (repo : Repo) (uri : String) (metadata : Option Graph)
    (w : World) (log : List Request) : Except Err Bool × List Request :=
  match metadata with
  | some g =>
    let headers : Headers := [("Content-type", some "text/turtle")]
    (match api repo uri "PUT" headers (ReqData.rdf g) w log with
     | (Except.error e, log) => (Except.error e, log)
     | (Except.ok none, log) => (Except.error Err.attributeError, log)
     | (Except.ok (some response), log) =>
       if response.status_code = 204 then
         (Except.ok true, log)
       else
         (Except.error (Err.resourceError uri response.status_code response.reason
           ("put RDF " ++ uri ++ " returned HTTP status " ++ toString response.status_code
             ++ " " ++ response.reason)), log))
  | none =>
    (Except.error (Err.error "Put to data objects has not been implemented"), log)

/-- `Resource.rdf_get` on a graph: the first object whose predicate
matches, or None. -/
def rdf_get (g : Graph) (predicate : Node) : Option Node :=
  ((g.filter (fun t => t.p == predicate)).map (fun t => t.o)).head?

/-- Python `str()` on `Optional[Node]`: `str(None)` is the string
"None". -/
def pyStr : Option Node → String
  | none => "None"
  | some n => n.str

/-- `Resource.dc` on a graph: one entry per known DC field, in DC_FIELDS
order, each the stringified first match. -/
def dc (g : Graph) : List (String × String) :=
  DC_FIELDS.map (fun field => (field, pyStr (rdf_get g (DC field))))

/-- `Resource.dc` on a resource: reads `self.rdf`, which is a Python
attribute error when the resource has no graph. -/
def Resource.dc (r : Resource) : Except Err (List (String × String)) :=
  match r.rdf with
  | some g => Except.ok (Fcrepo4.dc g)
  | none => Except.error Err.attributeError

/-! Concrete objects used by witnesses and counterexamples. -/

/-- A repository on the base uri http://x/ (no regex metacharacters). -/
def repoX : Repo := { uri := "http://x/", user := "u", password := "p" }

/-- A repository whose base uri contains a dot, as any real hostname
does. -/
def repoAB : Repo := { uri := "http://a.b/", user := "u", password := "p" }

/-- A world whose repository server answers 200 to every request. -/
def wAll200 : World :=
  { server := fun _ => { status_code := 200, reason := "OK" }
    web := fun _ => { status_code := 200, reason := "OK" }
    fs := fun _ => some ()
    guess_type := fun _ => none }

/-- A world whose repository server answers 403 Forbidden to GET and 201
Created to PUT. -/
def w403 : World :=
  { server := fun req =>
      if req.method = "GET" then { status_code := 403, reason := "Forbidden" }
      else if req.method = "PUT" then
        { status_code := 201, reason := "Created", text := "http://x/rest/secret" }
      else { status_code := 200, reason := "OK" }
    web := fun _ => { status_code := 200, reason := "OK" }
    fs := fun _ => some ()
    guess_type := fun _ => none }

/-- A world for the witnesses: GET finds the path occupied (200), DELETE
answers 204, PUT and POST answer 201 Created. -/
def wMain : World :=
  { server := fun req =>
      if req.method = "DELETE" then { status_code := 204, reason := "No Content" }
      else if req.method = "PUT" ∨ req.method = "POST" then
        { status_code := 201, reason := "Created", text := "http://x/rest/created" }
      else { status_code := 200, reason := "OK" }
    web := fun _ => { status_code := 200, reason := "OK", contentType := "image/jpeg" }
    fs := fun _ => some ()
    guess_type := fun _ => some "image/jpeg" }

/-- A one-triple graph carrying only a Dublin Core title. -/
def gW : Graph := [⟨Node.uriRef "", DC "title", Node.literal "T"⟩]

/-- A resource carrying the graph `gW`. -/
def resW : Resource := { uri := "http://x/rest/r", rdf := some gW }

/-- The POST create request of the C7 witness. -/
def postReqW : Request :=
  ⟨"POST", "http://x/rest/parent", [("Content-Type", some "text/turtle")], ReqData.rdf gW⟩

/-- The GET request issued by the conflict check on a target path. -/
def getReq (t : String) : Request := ⟨"GET", t, [], ReqData.noData⟩

/-- The DELETE request issued by `delete`. -/
def delReq (t : String) : Request := ⟨"DELETE", t, [], ReqData.noData⟩

/-- The DELETE request issued by `obliterate` on the tombstone path. -/
def tombReq (t : String) : Request :=
  ⟨"DELETE", pathconcat t "fcr:tombstone", [], ReqData.noData⟩

/-! Helper lemmas about the pattern matcher and the transport layer. -/

lemma charMatches_self (c : Char) : charMatches c c = true := by
  unfold charMatches
  by_cases h : c = '.'
  · subst h; decide
  · simp [h]

lemma scanFront_self_append (xs ys : List Char) : scanFront xs (xs ++ ys) = some ys := by
  induction xs with
  | nil => rfl
  | cons c cs ih => simp [scanFront, charMatches_self, ih]

lemma scanFront_extend (xs : List Char) :
    ∀ cs rest ys, scanFront xs cs = some rest →
      scanFront xs (cs ++ ys) = some (rest ++ ys) := by
  induction xs with
  | nil =>
    intro cs rest ys h
    simp [scanFront] at h ⊢
    simp [h]
  | cons c cs' ih =>
    intro cs rest ys h
    cases cs with
    | nil => simp [scanFront] at h
    | cons d ds =>
      unfold scanFront at h ⊢
      split at h
      · next hm => simp [hm, ih ds rest ys h]
      · exact absurd h (by simp)

lemma scanFront_suffix (xs : List Char) :
    ∀ cs rest, scanFront xs cs = some rest → ∃ pre, cs = pre ++ rest := by
  induction xs with
  | nil =>
    intro cs rest h
    simp [scanFront] at h
    exact ⟨[], by simp [h]⟩
  | cons c cs' ih =>
    intro cs rest h
    cases cs with
    | nil => simp [scanFront] at h
    | cons d ds =>
      unfold scanFront at h
      split at h
      · obtain ⟨pre, hp⟩ := ih ds rest h
        exact ⟨d :: pre, by simp [hp]⟩
      · exact absurd h (by simp)

lemma contains_append_false {a : Char} {xs ys : List Char}
    (hx : xs.contains a = false) (hy : ys.contains a = false) :
    (xs ++ ys).contains a = false := by
  simp_all

lemma contains_of_suffix_false {a : Char} {pre rest : List Char}
    (h : (pre ++ rest).contains a = false) : rest.contains a = false := by
  simp_all

/-- A uri equal to the literal base-plus-rest prefix followed by a
newline-free path is captured back exactly. -/
lemma pathreMatch_literal (repo : Repo) (p : String)
    (hnl : p.toList.contains '\n' = false) :
    pathreMatch repo (repo.uri ++ "rest/" ++ p) = some p := by
  unfold pathreMatch
  have h1 : (repo.uri ++ "rest/" ++ p).toList = (repo.uri ++ "rest/").toList ++ p.toList := rfl
  rw [h1, scanFront_self_append]
  have hnl2 : '\n' ∉ p.data := by simpa using hnl
  simp [captureRest, hnl2]

/-- A matching uri still matches after appending a newline-free suffix
(the pattern only constrains a prefix of fixed length). -/
lemma pathreMatch_extend (repo : Repo) (t ext : String) (cap : String)
    (h : pathreMatch repo t = some cap)
    (hnlt : t.toList.contains '\n' = false)
    (hnle : ext.toList.contains '\n' = false) :
    ∃ c2, pathreMatch repo (t ++ ext) = some c2 := by
  unfold pathreMatch at h ⊢
  cases hs : scanFront (repo.uri ++ "rest/").toList t.toList with
  | none => rw [hs] at h; simp at h
  | some rest =>
    have hrest : rest.contains '\n' = false := by
      obtain ⟨pre, hp⟩ := scanFront_suffix _ _ _ hs
      rw [hp] at hnlt
      exact contains_of_suffix_false hnlt
    have hsf := scanFront_extend _ _ _ ext.toList hs
    have hl : (t ++ ext).toList = t.toList ++ ext.toList := rfl
    rw [hl, hsf]
    have hca : '\n' ∉ rest ++ ext.data := by
      simpa using contains_append_false hrest hnle
    simp [captureRest, hca]

/-- The tombstone uri built by `obliterate` still matches the path
pattern. -/
lemma tombstone_match (repo : Repo) (t cap : String)
    (h : pathreMatch repo t = some cap)
    (hnl : t.toList.contains '\n' = false) :
    ∃ c2, pathreMatch repo (pathconcat t "fcr:tombstone") = some c2 := by
  unfold pathconcat
  split
  · exact pathreMatch_extend repo t "fcr:tombstone" cap h hnl (by decide)
  · rw [String.append_assoc]
    exact pathreMatch_extend repo t ("/" ++ "fcr:tombstone") cap h hnl (by decide)

/-- When the target uri matches the pattern and the method is in the
dispatch table, `api` issues exactly one request and returns the server
response. -/
lemma api_issues (repo : Repo) (uri method : String) (headers : Headers)
    (d : ReqData) (w : World) (log : List Request) (cap : String)
    (h : pathreMatch repo uri = some cap) (hm : METHODS.contains method = true) :
    api repo uri method headers d w log =
      (Except.ok (some (w.server ⟨method, uri, headers, d⟩)),
       log ++ [⟨method, uri, headers, d⟩]) := by
  unfold api uri2path
  rw [h]
  have hm2 : method ∈ METHODS := by simpa using hm
  simp [hm2]

/-- A successful DELETE (server answers 204). -/
lemma delete_204 (repo : Repo) (uri : String) (w : World) (log : List Request)
    (cap : String) (h : pathreMatch repo uri = some cap)
    (hst : (w.server (delReq uri)).status_code = 204) :
    _delete_uri repo uri w log = (Except.ok true, log ++ [delReq uri]) := by
  unfold _delete_uri
  rw [api_issues repo uri "DELETE" [] ReqData.noData w log cap h (by decide)]
  simp [delReq] at hst ⊢
  simp [hst]

/-- A failing DELETE (server answers anything but 204) raises
ResourceError. -/
lemma delete_fail (repo : Repo) (uri : String) (w : World) (log : List Request)
    (cap : String) (h : pathreMatch repo uri = some cap)
    (hst : (w.server (delReq uri)).status_code ≠ 204) :
    _delete_uri repo uri w log =
      (Except.error (Err.resourceError uri (w.server (delReq uri)).status_code
        (w.server (delReq uri)).reason
        ("delete " ++ uri ++ " returned HTTP status "
          ++ toString (w.server (delReq uri)).status_code ++ " "
          ++ (w.server (delReq uri)).reason)),
       log ++ [delReq uri]) := by
  unfold _delete_uri
  rw [api_issues repo uri "DELETE" [] ReqData.noData w log cap h (by decide)]
  simp [delReq] at hst ⊢
  simp [hst]

/-- The conflict check with `force = false` on an occupied path (GET
response truthy, i.e. status below 400) raises ConflictError having issued
only the GET. -/
lemma ensure_noforce (repo : Repo) (t : String) (w : World) (log : List Request)
    (cap : String) (h : pathreMatch repo t = some cap)
    (h2 : (w.server (getReq t)).status_code < 400) :
    _ensure_path repo t false w log =
      (Except.error (Err.conflictError ("Path " ++ t ++ " already exists: can"
        ++ apos ++ "t re-create without force")), log ++ [getReq t]) := by
  unfold _ensure_path
  rw [api_issues repo t "GET" [] ReqData.noData w log cap h (by decide)]
  simp only [getReq] at h2
  simp [optTruthy, HTTPResponse.truthy, getReq, h2]

/-- The conflict check with `force = true` on an occupied path when the
DELETE fails: raises the delete ResourceError after GET and DELETE, never
reaching the tombstone DELETE. -/
lemma ensure_force_delfail (repo : Repo) (t : String) (w : World) (log : List Request)
    (cap : String) (h : pathreMatch repo t = some cap)
    (h2 : (w.server (getReq t)).status_code < 400)
    (hdel : (w.server (delReq t)).status_code ≠ 204) :
    _ensure_path repo t true w log =
      (Except.error (Err.resourceError t (w.server (delReq t)).status_code
        (w.server (delReq t)).reason
        ("delete " ++ t ++ " returned HTTP status "
          ++ toString (w.server (delReq t)).status_code ++ " "
          ++ (w.server (delReq t)).reason)),
       log ++ [getReq t, delReq t]) := by
  unfold _ensure_path delete
  rw [api_issues repo t "GET" [] ReqData.noData w log cap h (by decide)]
  simp only [getReq] at h2
  have hg : optTruthy (some (w.server ⟨"GET", t, [], ReqData.noData⟩)) = true := by
    simp [optTruthy, HTTPResponse.truthy, h2]
  simp only [hg, if_true]
  rw [delete_fail repo t w (log ++ [Request.mk "GET" t [] ReqData.noData]) cap h hdel]
  simp [getReq, delReq]

/-- The conflict check with `force = true` on an occupied path when the
DELETE succeeds but the tombstone DELETE fails: raises the obliterate
ResourceError after GET, DELETE, tombstone DELETE. -/
lemma ensure_force_tombfail (repo : Repo) (t : String) (w : World) (log : List Request)
    (cap : String) (h : pathreMatch repo t = some cap)
    (hnl : t.toList.contains '\n' = false)
    (h2 : (w.server (getReq t)).status_code < 400)
    (hdel : (w.server (delReq t)).status_code = 204)
    (htomb : (w.server (tombReq t)).status_code ≠ 204) :
    _ensure_path repo t true w log =
      (Except.error (Err.resourceError (pathconcat t "fcr:tombstone")
        (w.server (tombReq t)).status_code (w.server (tombReq t)).reason
        ("delete " ++ pathconcat t "fcr:tombstone" ++ " returned HTTP status "
          ++ toString (w.server (tombReq t)).status_code ++ " "
          ++ (w.server (tombReq t)).reason)),
       log ++ [getReq t, delReq t, tombReq t]) := by
  unfold _ensure_path delete obliterate
  rw [api_issues repo t "GET" [] ReqData.noData w log cap h (by decide)]
  simp only [getReq] at h2
  have hg : optTruthy (some (w.server ⟨"GET", t, [], ReqData.noData⟩)) = true := by
    simp [optTruthy, HTTPResponse.truthy, h2]
  simp only [hg, if_true]
  rw [delete_204 repo t w (log ++ [Request.mk "GET" t [] ReqData.noData]) cap h hdel]
  obtain ⟨c2, hc2⟩ := tombstone_match repo t cap h hnl
  dsimp only
  rw [delete_fail repo (pathconcat t "fcr:tombstone") w
    (log ++ [Request.mk "GET" t [] ReqData.noData] ++ [delReq t]) c2 hc2 htomb]
  simp [getReq, delReq, tombReq]

/-- The conflict check with `force = true` on an occupied path when both
DELETEs succeed: returns normally after GET, DELETE, tombstone DELETE. -/
lemma ensure_force_ok (repo : Repo) (t : String) (w : World) (log : List Request)
    (cap : String) (h : pathreMatch repo t = some cap)
    (hnl : t.toList.contains '\n' = false)
    (h2 : (w.server (getReq t)).status_code < 400)
    (hdel : (w.server (delReq t)).status_code = 204)
    (htomb : (w.server (tombReq t)).status_code = 204) :
    _ensure_path repo t true w log =
      (Except.ok (), log ++ [getReq t, delReq t, tombReq t]) := by
  unfold _ensure_path delete obliterate
  rw [api_issues repo t "GET" [] ReqData.noData w log cap h (by decide)]
  simp only [getReq] at h2
  have hg : optTruthy (some (w.server ⟨"GET", t, [], ReqData.noData⟩)) = true := by
    simp [optTruthy, HTTPResponse.truthy, h2]
  simp only [hg, if_true]
  rw [delete_204 repo t w (log ++ [Request.mk "GET" t [] ReqData.noData]) cap h hdel]
  obtain ⟨c2, hc2⟩ := tombstone_match repo t cap h hnl
  dsimp only
  rw [delete_204 repo (pathconcat t "fcr:tombstone") w
    (log ++ [Request.mk "GET" t [] ReqData.noData] ++ [delReq t]) c2 hc2 htomb]
  simp [getReq, delReq, tombReq]

/-- `_add_resource` on HTTP 201 Created: the returned resource carries the
response body text as its uri. -/
lemma add_resource_201 (repo : Repo) (uri method : String) (headers : Headers)
    (d : ReqData) (w : World) (log : List Request) (cap : String)
    (h : pathreMatch repo uri = some cap) (hm : METHODS.contains method = true)
    (hst : (w.server ⟨method, uri, headers, d⟩).status_code = 201) :
    _add_resource repo uri method headers d w log =
      (Except.ok { uri := (w.server ⟨method, uri, headers, d⟩).text },
       log ++ [⟨method, uri, headers, d⟩]) := by
  unfold _add_resource
  rw [api_issues repo uri method headers d w log cap h hm]
  simp [hst]

/-- `_add_resource` on any status other than 201 raises ResourceError. -/
lemma add_resource_fail (repo : Repo) (uri method : String) (headers : Headers)
    (d : ReqData) (w : World) (log : List Request) (cap : String)
    (h : pathreMatch repo uri = some cap) (hm : METHODS.contains method = true)
    (hst : (w.server ⟨method, uri, headers, d⟩).status_code ≠ 201) :
    _add_resource repo uri method headers d w log =
      (Except.error (Err.resourceError uri (w.server ⟨method, uri, headers, d⟩).status_code
        (w.server ⟨method, uri, headers, d⟩).reason
        (method ++ " " ++ uri ++ " failed: "
          ++ toString (w.server ⟨method, uri, headers, d⟩).status_code ++ " "
          ++ (w.server ⟨method, uri, headers, d⟩).reason)),
       log ++ [⟨method, uri, headers, d⟩]) := by
  unfold _add_resource
  rw [api_issues repo uri method headers d w log cap h hm]
  simp [hst]

/-- Whatever the response status, `_add_resource` issues exactly the one
request. -/
lemma add_resource_trace (repo : Repo) (uri method : String) (headers : Headers)
    (d : ReqData) (w : World) (log : List Request) (cap : String)
    (h : pathreMatch repo uri = some cap) (hm : METHODS.contains method = true) :
    (_add_resource repo uri method headers d w log).2 =
      log ++ [⟨method, uri, headers, d⟩] := by
  by_cases hst : (w.server ⟨method, uri, headers, d⟩).status_code = 201
  · rw [add_resource_201 repo uri method headers d w log cap h hm hst]
  · rw [add_resource_fail repo uri method headers d w log cap h hm hst]

end Fcrepo4

namespace Fcrepo4

/-! Claim theorems. -/

/-- C1 (code bug): the spec requires a conflict-check GET failing with a
status other than not-found (for example 403) to propagate as a
ResourceError with that status.  The source intends this (its try/except
re-raises non-404 ResourceErrors) but `api` returns the response without
ever raising ResourceError, so the handler is dead code and the decision
falls to the truthiness of the response: ANY status of 400 or above -
403 included - is treated as a free path.  Here a 403 GET makes
`_ensure_path` return normally and `add_container` proceeds to issue the
creation PUT. -/
theorem ensure_path_403_treated_as_free :
    _ensure_path repoX "http://x/rest/secret" false w403 [] =
      (Except.ok (), [getReq "http://x/rest/secret"])
    ∧ add_container repoX "http://x/rest" [] none (some "secret") false w403 [] =
      (Except.ok { uri := "http://x/rest/secret", rdf := some [], response := none },
       [getReq "http://x/rest/secret",
        ⟨"PUT", "http://x/rest/secret", [("Content-Type", some "text/turtle")],
          ReqData.rdf []⟩]) := by
  exact ⟨rfl, rfl⟩

/-- C3 counterexample: the uri consisting of the base followed by rest
and a trailing separator belongs to the repository (captured path empty),
but converting it to a path and back drops the separator, so the round
trip is not the identity there. -/
theorem roundtrip_cx :
    uri2path repoX "http://x/rest/" = Except.ok ""
    ∧ path2uri repoX "" ≠ "http://x/rest/" := by
  exact ⟨rfl, by decide⟩

/-- C3 amended: for every repository and captured path that is non-empty,
does not start with a separator and contains no newline, converting the
uri to a path and back is the identity; the excluded cases (empty
captured path, or one starting with a separator) are exactly where
`path2uri` does not re-insert what the pattern consumed. -/
theorem roundtrip (repo : Repo) (p : String)
    (h0 : p ≠ "") (h1 : p.take 1 ≠ "/") (h2 : p.toList.contains '\n' = false) :
    uri2path repo (repo.uri ++ "rest/" ++ p) = Except.ok p
    ∧ path2uri repo p = repo.uri ++ "rest/" ++ p := by
  constructor
  · unfold uri2path
    rw [pathreMatch_literal repo p h2]
  · show (if p = "" then repo.uri ++ "rest"
          else if p.take 1 ≠ "/" then repo.uri ++ "rest" ++ "/" ++ p
          else repo.uri ++ "rest" ++ p) = repo.uri ++ "rest/" ++ p
    rw [if_neg h0, if_pos h1, String.append_assoc repo.uri "rest" "/"]
    rfl

/-- C3 witness: the round trip at the concrete path foo. -/
theorem roundtrip_witness :
    ("foo" ≠ "") ∧ ("foo".take 1 ≠ "/") ∧ ("foo".toList.contains '\n' = false)
    ∧ (uri2path repoX (repoX.uri ++ "rest/" ++ "foo") = Except.ok "foo"
       ∧ path2uri repoX "foo" = repoX.uri ++ "rest/" ++ "foo") :=
  ⟨by decide, by decide, by decide,
   roundtrip repoX "foo" (by decide) (by decide) (by decide)⟩

/-- C5 (code bug): `pathconcat` is specified to join with exactly one
separator, but the source tests `path[:-1]` (all but the last character)
instead of `path[-1:]` (the last character): a path that ends in the
separator receives a second one, and a two-character path starting with
the separator receives none. -/
theorem pathconcat_separator_slip :
    pathconcat "http://x/rest/a/" "fcr:tombstone" = "http://x/rest/a//fcr:tombstone"
    ∧ pathconcat "/a" "fcr:tombstone" = "/afcr:tombstone" := by
  exact ⟨by decide, by decide⟩

/-- C6 (code bug): `uri2path` is specified to always fail with URIError on
a URI from a different base URI, and `api` to reject such URIs before any
request.  The base URI is interpolated into the path regex without
escaping, so the dot of the hostname matches any character: a URI from the
different base http://aXb/ is accepted by a repository configured for
http://a.b/, and `api` issues the request. -/
theorem uri2path_unescaped_dot :
    uri2path repoAB "http://aXb/rest/foo" = Except.ok "foo"
    ∧ (api repoAB "http://aXb/rest/foo" "GET" [] ReqData.noData wAll200 []).2 =
      [getReq "http://aXb/rest/foo"] := by
  exact ⟨rfl, rfl⟩

/-- C8 counterexample: constructing a Repository from a mapping missing
the uri field fails with the GENERIC base-class Error (the source defines
no ConfigurationError class), though the message does name the missing
field. -/
theorem repo_init_missing_uri_cx :
    repoInit [("user", "u"), ("password", "p")] =
      Except.error (Err.error "Config values missing: uri") := by
  rfl

/-- C8 amended: constructing a Repository from a configuration mapping
missing any of the required fields uri, user, password fails with the
generic Error whose message names the missing fields in that order. -/
theorem repo_init_missing_fields (configd : List (String × String))
    (h : requiredFields.filter (fun f => ! configHas configd f) ≠ []) :
    repoInit configd =
      Except.error (Err.error ("Config values missing: "
        ++ String.intercalate ", "
          (requiredFields.filter (fun f => ! configHas configd f)))) := by
  unfold repoInit
  rw [if_pos h]

/-- C8 witness: a mapping with only a password is missing uri and user. -/
theorem repo_init_missing_fields_witness :
    (requiredFields.filter (fun f => ! configHas [("password", "p")] f) ≠ [])
    ∧ repoInit [("password", "p")] =
      Except.error (Err.error ("Config values missing: "
        ++ String.intercalate ", "
          (requiredFields.filter (fun f => ! configHas [("password", "p")] f)))) :=
  ⟨by decide, repo_init_missing_fields [("password", "p")] (by decide)⟩

end Fcrepo4

namespace Fcrepo4

/-- Looking up a key in a map built with one entry per list element finds
the value computed for that key. -/
lemma lookup_map_self (l : List String) (v : String → String) (a : String)
    (h : a ∈ l) :
    List.lookup a (l.map (fun x => (x, v x))) = some (v a) := by
  induction l with
  | nil => cases h
  | cons b l ih =>
    simp only [List.map, List.lookup]
    by_cases hab : a = b
    · subst hab
      simp
    · have hm : a ∈ l := by
        cases h with
        | head => exact absurd rfl hab
        | tail _ hmem => exact hmem
      have hne : (a == b) = false := beq_eq_false_iff_ne.mpr hab
      simp [hne, ih hm]

/-- C10: for every Resource carrying an rdf graph, the flat-field
extraction dc maps each of the 15 known fields to a string: the
stringified first matching object if one exists, and the string None (the
Python str of the absent value) when the graph has no triple with that
predicate - the key is never omitted. -/
theorem dc_fields_total (r : Resource) (g : Graph) (f : String)
    (hr : r.rdf = some g) (hf : f ∈ DC_FIELDS) :
    Resource.dc r = Except.ok (dc g)
    ∧ List.lookup f (dc g) = some (pyStr (rdf_get g (DC f)))
    ∧ ((∀ t ∈ g, t.p ≠ DC f) → List.lookup f (dc g) = some "None")
    ∧ (∀ o, rdf_get g (DC f) = some o → List.lookup f (dc g) = some o.str) := by
  have hbase : List.lookup f (dc g) = some (pyStr (rdf_get g (DC f))) := by
    unfold dc
    exact lookup_map_self DC_FIELDS _ f hf
  refine ⟨?_, hbase, ?_, ?_⟩
  · unfold Resource.dc
    rw [hr]
  · intro habs
    have hnone : rdf_get g (DC f) = none := by
      unfold rdf_get
      have hfil : g.filter (fun t => t.p == DC f) = [] := by
        rw [List.filter_eq_nil_iff]
        intro t ht
        simpa using habs t ht
      rw [hfil]
      rfl
    rw [hbase, hnone]
    rfl
  · intro o ho
    rw [hbase, ho]
    rfl

/-- C10 witness: a graph holding only a title triple yields the title
literal for the title field. -/
theorem dc_fields_total_witness :
    resW.rdf = some gW
    ∧ "title" ∈ DC_FIELDS
    ∧ (Resource.dc resW = Except.ok (dc gW)
       ∧ List.lookup "title" (dc gW) = some (pyStr (rdf_get gW (DC "title")))
       ∧ ((∀ t ∈ gW, t.p ≠ DC "title") → List.lookup "title" (dc gW) = some "None")
       ∧ (∀ o, rdf_get gW (DC "title") = some o →
            List.lookup "title" (dc gW) = some o.str)) :=
  ⟨rfl, by decide, dc_fields_total resW gW "title" rfl (by decide)⟩

end Fcrepo4

namespace Fcrepo4

/-- C4: a deterministic-path create (add_container or add_binary with a
path argument) whose conflict-check GET finds the path occupied (response
truthy) and whose force flag is false fails with ConflictError having
issued only that GET - no create request is ever sent. -/
theorem noforce_conflict (repo : Repo) (uri0 p : String) (g : Graph)
    (slug : Option String) (src : Source) (w : World) (cap : String)
    (h : pathreMatch repo (pathconcat uri0 p) = some cap)
    (hocc : (w.server (getReq (pathconcat uri0 p))).status_code < 400) :
    add_container repo uri0 g slug (some p) false w [] =
      (Except.error (Err.conflictError ("Path " ++ pathconcat uri0 p
        ++ " already exists: can" ++ apos ++ "t re-create without force")),
       [getReq (pathconcat uri0 p)])
    ∧ add_binary repo uri0 src slug (some p) false none w [] =
      (Except.error (Err.conflictError ("Path " ++ pathconcat uri0 p
        ++ " already exists: can" ++ apos ++ "t re-create without force")),
       [getReq (pathconcat uri0 p)]) := by
  constructor
  · unfold add_container
    dsimp only
    rw [ensure_noforce repo (pathconcat uri0 p) w [] cap h hocc]
    simp
  · unfold add_binary
    dsimp only
    rw [ensure_noforce repo (pathconcat uri0 p) w [] cap h hocc]
    simp

/-- C4 witness at a concrete occupied path. -/
theorem noforce_conflict_witness :
    pathreMatch repoX (pathconcat "http://x/rest" "test") = some "test"
    ∧ (wMain.server (getReq (pathconcat "http://x/rest" "test"))).status_code < 400
    ∧ (add_container repoX "http://x/rest" [] none (some "test") false wMain [] =
        (Except.error (Err.conflictError ("Path " ++ pathconcat "http://x/rest" "test"
          ++ " already exists: can" ++ apos ++ "t re-create without force")),
         [getReq (pathconcat "http://x/rest" "test")])
       ∧ add_binary repoX "http://x/rest" Source.stream none (some "test") false none wMain [] =
        (Except.error (Err.conflictError ("Path " ++ pathconcat "http://x/rest" "test"
          ++ " already exists: can" ++ apos ++ "t re-create without force")),
         [getReq (pathconcat "http://x/rest" "test")])) :=
  ⟨by decide, by decide,
   noforce_conflict repoX "http://x/rest" "test" [] none Source.stream wMain "test"
     (by decide) (by decide)⟩

/-- C7: when the create POST of add_container returns HTTP 201 Created,
the returned Resource has the response body text as its uri and the
caller-supplied graph as its rdf, and no further request (no re-fetch) is
issued; on any other status it fails with ResourceError. -/
theorem add_container_post_result (repo : Repo) (uri : String) (g : Graph)
    (w : World) (cap : String) (h : pathreMatch repo uri = some cap) :
    ((w.server ⟨"POST", uri, [("Content-Type", some "text/turtle")],
        ReqData.rdf g⟩).status_code = 201 →
      add_container repo uri g none none false w [] =
        (Except.ok { uri := (w.server ⟨"POST", uri, [("Content-Type", some "text/turtle")],
            ReqData.rdf g⟩).text, rdf := some g, response := none },
         [⟨"POST", uri, [("Content-Type", some "text/turtle")], ReqData.rdf g⟩]))
    ∧ ((w.server ⟨"POST", uri, [("Content-Type", some "text/turtle")],
        ReqData.rdf g⟩).status_code ≠ 201 →
      add_container repo uri g none none false w [] =
        (Except.error (Err.resourceError uri
          (w.server ⟨"POST", uri, [("Content-Type", some "text/turtle")],
            ReqData.rdf g⟩).status_code
          (w.server ⟨"POST", uri, [("Content-Type", some "text/turtle")],
            ReqData.rdf g⟩).reason
          ("POST " ++ uri ++ " failed: "
            ++ toString (w.server ⟨"POST", uri, [("Content-Type", some "text/turtle")],
                ReqData.rdf g⟩).status_code
            ++ " " ++ (w.server ⟨"POST", uri, [("Content-Type", some "text/turtle")],
                ReqData.rdf g⟩).reason)),
         [⟨"POST", uri, [("Content-Type", some "text/turtle")], ReqData.rdf g⟩])) := by
  constructor
  · intro hst
    unfold add_container
    dsimp only
    rw [add_resource_201 repo uri "POST" [("Content-Type", some "text/turtle")]
      (ReqData.rdf g) w [] cap h (by decide) hst]
    simp
  · intro hst
    unfold add_container
    dsimp only
    rw [add_resource_fail repo uri "POST" [("Content-Type", some "text/turtle")]
      (ReqData.rdf g) w [] cap h (by decide) hst]
    simp

/-- C7 witness: a POST answered 201 with a Location body. -/
theorem add_container_post_result_witness :
    pathreMatch repoX "http://x/rest/parent" = some "parent"
    ∧ (((wMain.server postReqW).status_code = 201 →
        add_container repoX "http://x/rest/parent" gW none none false wMain [] =
          (Except.ok { uri := (wMain.server postReqW).text, rdf := some gW, response := none },
           [postReqW]))
       ∧ ((wMain.server postReqW).status_code ≠ 201 →
        add_container repoX "http://x/rest/parent" gW none none false wMain [] =
          (Except.error (Err.resourceError "http://x/rest/parent"
            (wMain.server postReqW).status_code (wMain.server postReqW).reason
            ("POST " ++ "http://x/rest/parent" ++ " failed: "
              ++ toString (wMain.server postReqW).status_code ++ " "
              ++ (wMain.server postReqW).reason)), [postReqW]))) :=
  ⟨by decide,
   add_container_post_result repoX "http://x/rest/parent" gW wMain "parent" (by decide)⟩

end Fcrepo4

namespace Fcrepo4

/-- C9 counterexample: add_binary given an opaque byte stream (any
non-string source) does not perform an upload; it fails with the generic
Error and issues no request at all. -/
theorem add_binary_stream_cx :
    add_binary repoX "http://x/rest" Source.stream none none false none wAll200 [] =
      (Except.error (Err.error "add_binary only does files and URLs atm"), []) := by
  rfl

/-- C9 amended: add_binary accepts exactly two source kinds, both Python
strings: an http(s) URL (streamed from the web) and a local filesystem
path (opened and streamed); in both cases the create request is issued.
Any non-string source - including an opaque byte stream - fails with the
generic Error before any request. -/
theorem add_binary_source_kinds (repo : Repo) (uri s : String) (w : World)
    (cap : String) (h : pathreMatch repo uri = some cap) :
    (_is_url s = true →
      (add_binary repo uri (Source.str s) none none false none w []).2 =
        [⟨"POST", uri,
          [("Content-type", some (w.web s).contentType),
           ("Content-Disposition",
            some ("attachment; filename=\"" ++ (s.splitOn "/").getLastD "" ++ "\""))],
          ReqData.urlStream s⟩])
    ∧ (_is_url s = false → w.fs s = some () →
      (add_binary repo uri (Source.str s) none none false none w []).2 =
        [⟨"POST", uri,
          [("Content-type", w.guess_type s),
           ("Content-Disposition",
            some ("attachment; filename=\"" ++ os_path_basename s ++ "\""))],
          ReqData.fileData s⟩])
    ∧ add_binary repo uri Source.stream none none false none w [] =
        (Except.error (Err.error "add_binary only does files and URLs atm"), []) := by
  refine ⟨?_, ?_, ?_⟩
  · intro hu
    unfold add_binary
    dsimp only
    rw [if_pos hu]
    simp only [List.nil_append, List.singleton_append, Option.isSome_none,
      Bool.false_eq_true, and_false, if_false]
    rw [add_resource_trace repo uri "POST"
      [("Content-type", some (w.web s).contentType),
       ("Content-Disposition",
        some ("attachment; filename=\"" ++ (s.splitOn "/").getLastD "" ++ "\""))]
      (ReqData.urlStream s) w [] cap h (by decide)]
    simp
  · intro hu hfs
    unfold add_binary
    dsimp only
    rw [if_neg (by simp [hu]), hfs]
    simp only [List.nil_append, List.singleton_append]
    rw [add_resource_trace repo uri "POST"
      [("Content-type", w.guess_type s),
       ("Content-Disposition",
        some ("attachment; filename=\"" ++ os_path_basename s ++ "\""))]
      (ReqData.fileData s) w [] cap h (by decide)]
    simp
  · rfl

/-- C9 witness: a URL source and a file source both reach the create
request; the witness world serves both. -/
theorem add_binary_source_kinds_witness :
    pathreMatch repoX "http://x/rest/c" = some "c"
    ∧ ((_is_url "http://pics/b.jpg" = true →
        (add_binary repoX "http://x/rest/c" (Source.str "http://pics/b.jpg")
            none none false none wMain []).2 =
          [⟨"POST", "http://x/rest/c",
            [("Content-type", some (wMain.web "http://pics/b.jpg").contentType),
             ("Content-Disposition",
              some ("attachment; filename=\""
                ++ ("http://pics/b.jpg".splitOn "/").getLastD "" ++ "\""))],
            ReqData.urlStream "http://pics/b.jpg"⟩])
       ∧ (_is_url "http://pics/b.jpg" = false → wMain.fs "http://pics/b.jpg" = some () →
        (add_binary repoX "http://x/rest/c" (Source.str "http://pics/b.jpg")
            none none false none wMain []).2 =
          [⟨"POST", "http://x/rest/c",
            [("Content-type", wMain.guess_type "http://pics/b.jpg"),
             ("Content-Disposition",
              some ("attachment; filename=\""
                ++ os_path_basename "http://pics/b.jpg" ++ "\""))],
            ReqData.fileData "http://pics/b.jpg"⟩])
       ∧ add_binary repoX "http://x/rest/c" Source.stream none none false none wMain [] =
          (Except.error (Err.error "add_binary only does files and URLs atm"), [])) :=
  ⟨by decide,
   add_binary_source_kinds repoX "http://x/rest/c" "http://pics/b.jpg" wMain "c" (by decide)⟩

end Fcrepo4

namespace Fcrepo4

/-- C2: for a deterministic-path create with force true whose conflict
check finds the path occupied (truthy GET), the client issues the DELETE
of the path and then the DELETE of its tombstone, and the creation PUT is
issued only after both of those returned 204: if the first DELETE fails
the request trace ends with it and no PUT is ever issued; if the tombstone
DELETE fails the trace ends with it and no PUT is ever issued; only when
both succeed does the PUT follow them, as the fourth request - for
add_container with any slug and metadata, and for add_binary with any
source (shown for a URL source in the success case). -/
theorem force_overwrite_order (repo : Repo) (uri0 p surl : String) (g : Graph)
    (slug : Option String) (src : Source) (w : World) (cap : String)
    (h : pathreMatch repo (pathconcat uri0 p) = some cap)
    (hnl : (pathconcat uri0 p).toList.contains '\n' = false)
    (hocc : (w.server (getReq (pathconcat uri0 p))).status_code < 400) :
    ((w.server (delReq (pathconcat uri0 p))).status_code ≠ 204 →
      (add_container repo uri0 g slug (some p) true w []).2 =
        [getReq (pathconcat uri0 p), delReq (pathconcat uri0 p)]
      ∧ (add_binary repo uri0 src slug (some p) true none w []).2 =
        [getReq (pathconcat uri0 p), delReq (pathconcat uri0 p)])
    ∧ ((w.server (delReq (pathconcat uri0 p))).status_code = 204 →
       (w.server (tombReq (pathconcat uri0 p))).status_code ≠ 204 →
      (add_container repo uri0 g slug (some p) true w []).2 =
        [getReq (pathconcat uri0 p), delReq (pathconcat uri0 p),
         tombReq (pathconcat uri0 p)]
      ∧ (add_binary repo uri0 src slug (some p) true none w []).2 =
        [getReq (pathconcat uri0 p), delReq (pathconcat uri0 p),
         tombReq (pathconcat uri0 p)])
    ∧ ((w.server (delReq (pathconcat uri0 p))).status_code = 204 →
       (w.server (tombReq (pathconcat uri0 p))).status_code = 204 →
      (add_container repo uri0 g slug (some p) true w []).2 =
        [getReq (pathconcat uri0 p), delReq (pathconcat uri0 p),
         tombReq (pathconcat uri0 p),
         ⟨"PUT", pathconcat uri0 p, [("Content-Type", some "text/turtle")],
           ReqData.rdf g⟩]
      ∧ (_is_url surl = true →
        (add_binary repo uri0 (Source.str surl) slug (some p) true none w []).2 =
          [getReq (pathconcat uri0 p), delReq (pathconcat uri0 p),
           tombReq (pathconcat uri0 p),
           ⟨"PUT", pathconcat uri0 p,
             [("Content-type", some (w.web surl).contentType),
              ("Content-Disposition",
               some ("attachment; filename=\"" ++ (surl.splitOn "/").getLastD "" ++ "\""))],
             ReqData.urlStream surl⟩])) := by
  refine ⟨?_, ?_, ?_⟩
  · intro hdel
    constructor
    · unfold add_container
      dsimp only
      rw [ensure_force_delfail repo (pathconcat uri0 p) w [] cap h hocc hdel]
      simp
    · unfold add_binary
      dsimp only
      rw [ensure_force_delfail repo (pathconcat uri0 p) w [] cap h hocc hdel]
      simp
  · intro hdel htomb
    constructor
    · unfold add_container
      dsimp only
      rw [ensure_force_tombfail repo (pathconcat uri0 p) w [] cap h hnl hocc hdel htomb]
      simp
    · unfold add_binary
      dsimp only
      rw [ensure_force_tombfail repo (pathconcat uri0 p) w [] cap h hnl hocc hdel htomb]
      simp
  · intro hdel htomb
    constructor
    · unfold add_container
      dsimp only
      rw [ensure_force_ok repo (pathconcat uri0 p) w [] cap h hnl hocc hdel htomb]
      simp only [List.nil_append]
      by_cases hput : (w.server ⟨"PUT", pathconcat uri0 p,
          [("Content-Type", some "text/turtle")], ReqData.rdf g⟩).status_code = 201
      · rw [add_resource_201 repo (pathconcat uri0 p) "PUT"
          [("Content-Type", some "text/turtle")] (ReqData.rdf g) w
          [getReq (pathconcat uri0 p), delReq (pathconcat uri0 p),
           tombReq (pathconcat uri0 p)] cap h (by decide) hput]
        simp
      · rw [add_resource_fail repo (pathconcat uri0 p) "PUT"
          [("Content-Type", some "text/turtle")] (ReqData.rdf g) w
          [getReq (pathconcat uri0 p), delReq (pathconcat uri0 p),
           tombReq (pathconcat uri0 p)] cap h (by decide) hput]
        simp
    · intro hurl
      unfold add_binary
      dsimp only
      rw [ensure_force_ok repo (pathconcat uri0 p) w [] cap h hnl hocc hdel htomb]
      simp only [List.nil_append]
      rw [if_pos hurl]
      have hb : ("PUT" = "POST" ∧ slug.isSome = true) = False := by simp
      simp only [hb, if_false, List.nil_append, List.singleton_append]
      rw [add_resource_trace repo (pathconcat uri0 p) "PUT"
        [("Content-type", some (w.web surl).contentType),
         ("Content-Disposition",
          some ("attachment; filename=\"" ++ (surl.splitOn "/").getLastD "" ++ "\""))]
        (ReqData.urlStream surl) w
        [getReq (pathconcat uri0 p), delReq (pathconcat uri0 p),
         tombReq (pathconcat uri0 p)] cap h (by decide)]
      simp

end Fcrepo4

namespace Fcrepo4

/-- C2 witness: at a concrete occupied path with a server that grants both
DELETEs, the full four-request trace is realized. -/
theorem force_overwrite_order_witness :
    pathreMatch repoX (pathconcat "http://x/rest" "test") = some "test"
    ∧ (pathconcat "http://x/rest" "test").toList.contains '\n' = false
    ∧ (wMain.server (getReq (pathconcat "http://x/rest" "test"))).status_code < 400
    ∧ (((wMain.server (delReq (pathconcat "http://x/rest" "test"))).status_code ≠ 204 →
        (add_container repoX "http://x/rest" [] none (some "test") true wMain []).2 =
          [getReq (pathconcat "http://x/rest" "test"),
           delReq (pathconcat "http://x/rest" "test")]
        ∧ (add_binary repoX "http://x/rest" Source.stream none (some "test") true none wMain []).2 =
          [getReq (pathconcat "http://x/rest" "test"),
           delReq (pathconcat "http://x/rest" "test")])
      ∧ ((wMain.server (delReq (pathconcat "http://x/rest" "test"))).status_code = 204 →
         (wMain.server (tombReq (pathconcat "http://x/rest" "test"))).status_code ≠ 204 →
        (add_container repoX "http://x/rest" [] none (some "test") true wMain []).2 =
          [getReq (pathconcat "http://x/rest" "test"),
           delReq (pathconcat "http://x/rest" "test"),
           tombReq (pathconcat "http://x/rest" "test")]
        ∧ (add_binary repoX "http://x/rest" Source.stream none (some "test") true none wMain []).2 =
          [getReq (pathconcat "http://x/rest" "test"),
           delReq (pathconcat "http://x/rest" "test"),
           tombReq (pathconcat "http://x/rest" "test")])
      ∧ ((wMain.server (delReq (pathconcat "http://x/rest" "test"))).status_code = 204 →
         (wMain.server (tombReq (pathconcat "http://x/rest" "test"))).status_code = 204 →
        (add_container repoX "http://x/rest" [] none (some "test") true wMain []).2 =
          [getReq (pathconcat "http://x/rest" "test"),
           delReq (pathconcat "http://x/rest" "test"),
           tombReq (pathconcat "http://x/rest" "test"),
           ⟨"PUT", pathconcat "http://x/rest" "test",
             [("Content-Type", some "text/turtle")], ReqData.rdf []⟩]
        ∧ (_is_url "http://pics/a.jpg" = true →
          (add_binary repoX "http://x/rest" (Source.str "http://pics/a.jpg")
              none (some "test") true none wMain []).2 =
            [getReq (pathconcat "http://x/rest" "test"),
             delReq (pathconcat "http://x/rest" "test"),
             tombReq (pathconcat "http://x/rest" "test"),
             ⟨"PUT", pathconcat "http://x/rest" "test",
               [("Content-type", some (wMain.web "http://pics/a.jpg").contentType),
                ("Content-Disposition",
                 some ("attachment; filename=\""
                   ++ ("http://pics/a.jpg".splitOn "/").getLastD "" ++ "\""))],
               ReqData.urlStream "http://pics/a.jpg"⟩]))) :=
  ⟨by decide, by decide, by decide,
   force_overwrite_order repoX "http://x/rest" "test" "http://pics/a.jpg" [] none
     Source.stream wMain "test" (by decide) (by decide) (by decide)⟩

end Fcrepo4
